import Mathlib

set_option maxHeartbeats 1000000

/-
Verification development for the WING routing snapshot script
(`JG_Behringer_Wing_Rec_USB-Module-Card_get_track_infos.py`).

The script is embedded shallowly:
* `queryReliable` models `query_reliable` as a function of the address list
  and of the sequence of (address, value) replies the OSC server handled
  during the run (batching and timing decide only which replies are in that
  sequence, not how a handled reply updates the result state).
* `norm`, `pyInt`, `pyOr`, `pyStrip`, ... model the small Python string
  helpers the script uses (`int(...)`, `x or y`, `.strip()`, ...).
* `slotInfo` / `slotRGB` / `resolveSlot` model the per-slot resolution body
  of `fetch_wing` (lines 197-299), parameterised by the merged reply map `r`
  and by the channel/source metadata maps (`ch_to_hw` / `src_to_hw`), whose
  construction iterates a Python set in unspecified order.
* `scanGo` / `stereoScan` model the in-place stereo pairing loop
  (lines 301-341) as a left-to-right scan carrying the current head.
-/

/-! ## Python string primitives -/

/-- Models Python `str.strip()`: drop leading and trailing whitespace. -/
def pyStrip (s : String) : String :=
  String.mk (((s.data.dropWhile Char.isWhitespace).reverse.dropWhile Char.isWhitespace).reverse)

/-- Models the Python idiom `x or d` where `x` is `r.get(addr)` (an optional
string): `None` and the empty string are falsy and yield the default. -/
def pyOr (o : Option String) (d : String) : String :=
  match o with
  | none => d
  | some v => if v = "" then d else v

/-- Value of a list of decimal digit characters. -/
def digitsVal (l : List Char) : Nat :=
  l.foldl (fun acc c => acc * 10 + (c.toNat - '0'.toNat)) 0

/-- Models Python `int(s)` on optionally signed decimal strings (surrounding
whitespace stripped; underscore digit separators are not modelled). Returns
`none` where Python raises `ValueError`. -/
def pyInt (s : String) : Option Int :=
  match (pyStrip s).data with
  | [] => none
  | '+' :: rest =>
    if rest ≠ [] ∧ rest.all Char.isDigit then some (digitsVal rest : Int) else none
  | '-' :: rest =>
    if rest ≠ [] ∧ rest.all Char.isDigit then some (-(digitsVal rest : Int)) else none
  | cs =>
    if cs.all Char.isDigit then some (digitsVal cs : Int) else none

/-- First-occurrence deduplication: the key list of a Python dict built as
`{a: None for a in addrs}` (and the element list of `set(addrs)` as reached
through that dict's keys). -/
def dedupFirst : List String → List String
  | [] => []
  | a :: rest => a :: (dedupFirst rest).filter (fun b => !(b == a))

/-! ## ReliableQueryEngine (`query_reliable`, source lines 71-93) -/

/-- The result dictionary `res` of `query_reliable`: an association list from
address to optional reply value. -/
abbrev ResMap := List (String × Option String)

/-- Dictionary lookup: `some v` when the key is present with value `v`,
`none` when the key is absent. -/
def resLookup (res : ResMap) (a : String) : Option (Option String) :=
  (res.find? (fun p => p.1 == a)).map Prod.snd

/-- `res[addr] = value` for a key already present (the handler only writes
keys that are still pending, and pending keys are always present). -/
def setRes (res : ResMap) (a : String) (v : String) : ResMap :=
  res.map (fun p => if p.1 == a then (p.1, some v) else p)

/-- Engine state: the result dict `res` and the `pending` set. -/
structure QState where
  res : ResMap
  pending : List String

/-- The OSC handler `h` (source lines 75-78) applied to one handled reply
`(addr, value)`, where `value` is already the coerced string
(`str(args[0]) if args else ""`): a reply for a still-pending address records
the value and discards the address from `pending`; any other reply is ignored. -/
def handle (st : QState) (m : String × String) : QState :=
  if m.1 ∈ st.pending then
    ⟨setRes st.res m.1 m.2, st.pending.filter (fun b => !(b == m.1))⟩
  else st

/-- Initial engine state: `res = {a: None for a in addrs}` and
`pending = set(addrs)`. -/
def queryInit (addrs : List String) : QState :=
  ⟨(dedupFirst addrs).map (fun a => (a, none)), dedupFirst addrs⟩

/-- `query_reliable(addrs, ...)` as a function of the sequence of replies the
server handled across all batches and retry rounds. -/
def queryReliable (addrs : List String) (trace : List (String × String)) : ResMap :=
  (trace.foldl handle (queryInit addrs)).res

/-- The first reply value observed for an address in a handled-reply trace. -/
def firstReply (trace : List (String × String)) (a : String) : Option String :=
  (trace.find? (fun m => m.1 == a)).map Prod.snd

/-! ### Query engine lemmas -/

theorem resLookup_cons (p : String × Option String) (res : ResMap) (a : String) :
    resLookup (p :: res) a = if p.1 == a then some p.2 else resLookup res a := by
  by_cases h : p.1 == a <;> simp [resLookup, List.find?, h]

theorem setRes_keys (res : ResMap) (a : String) (v : String) :
    (setRes res a v).map Prod.fst = res.map Prod.fst := by
  induction res with
  | nil => rfl
  | cons p rest ih =>
    simp only [setRes, List.map_cons] at ih ⊢
    refine congrArg₂ List.cons ?_ ih
    split <;> rfl

theorem resLookup_setRes (res : ResMap) (a b : String) (v : String) :
    resLookup (setRes res b v) a =
      if b = a then (resLookup res a).map (fun _ => some v) else resLookup res a := by
  induction res with
  | nil => simp [resLookup, setRes]
  | cons p rest ih =>
    simp only [setRes, List.map_cons] at ih ⊢
    by_cases hpb : p.1 = b <;> by_cases hpa : p.1 = a
    · -- head key equals both b and a, so b = a and the head is overwritten
      have hba : b = a := by rw [← hpb, hpa]
      have hhead : (if (p.1 == b) = true then (p.1, some v) else p) = (p.1, some v) := by
        simp [hpb]
      rw [hhead, resLookup_cons, resLookup_cons, if_pos hba]
      simp [hpa]
    · have hba : ¬ b = a := fun h => hpa (by rw [hpb, h])
      have hhead : (if (p.1 == b) = true then (p.1, some v) else p) = (p.1, some v) := by
        simp [hpb]
      have hcond : ¬ ((p.1 == a) = true) := by simp [hpa]
      rw [hhead, resLookup_cons, resLookup_cons, if_neg hba, if_neg hcond, if_neg hcond]
      rw [ih, if_neg hba]
    · have hba : ¬ b = a := fun h => hpb (by rw [hpa, ← h])
      have hhead : (if (p.1 == b) = true then (p.1, some v) else p) = p := by
        simp [hpb]
      rw [hhead, resLookup_cons, resLookup_cons, if_neg hba]
      simp [hpa]
    · have hhead : (if (p.1 == b) = true then (p.1, some v) else p) = p := by
        simp [hpb]
      have hcond : ¬ ((p.1 == a) = true) := by simp [hpa]
      rw [hhead, resLookup_cons, resLookup_cons, if_neg hcond, if_neg hcond, ih]

theorem handle_pos (st : QState) (m : String × String) (h : m.1 ∈ st.pending) :
    handle st m = ⟨setRes st.res m.1 m.2, st.pending.filter (fun b => !(b == m.1))⟩ := by
  simp [handle, h]

theorem handle_neg (st : QState) (m : String × String) (h : m.1 ∉ st.pending) :
    handle st m = st := by
  simp [handle, h]

theorem foldl_handle_keys (trace : List (String × String)) :
    ∀ st : QState, ((trace.foldl handle st).res).map Prod.fst = st.res.map Prod.fst := by
  induction trace with
  | nil => intro st; rfl
  | cons m rest ih =>
    intro st
    rw [List.foldl_cons]
    by_cases hmem : m.1 ∈ st.pending
    · rw [handle_pos st m hmem, ih]
      exact setRes_keys st.res m.1 m.2
    · rw [handle_neg st m hmem, ih]

theorem foldl_handle_stable (trace : List (String × String)) :
    ∀ (st : QState) (a : String), a ∉ st.pending →
      resLookup ((trace.foldl handle st).res) a = resLookup st.res a := by
  induction trace with
  | nil => intro st a _; rfl
  | cons m rest ih =>
    intro st a ha
    rw [List.foldl_cons]
    by_cases hmem : m.1 ∈ st.pending
    · rw [handle_pos st m hmem]
      have hne : m.1 ≠ a := fun h => ha (h ▸ hmem)
      have ha2 : a ∉ st.pending.filter (fun b => !(b == m.1)) := fun hf =>
        ha (List.mem_of_mem_filter hf)
      rw [ih _ a ha2]
      show resLookup (setRes st.res m.1 m.2) a = resLookup st.res a
      rw [resLookup_setRes, if_neg hne]
    · rw [handle_neg st m hmem]
      exact ih st a ha

theorem foldl_handle_first (trace : List (String × String)) :
    ∀ (st : QState) (a : String) (w : Option String),
      a ∈ st.pending → resLookup st.res a = some w →
      resLookup ((trace.foldl handle st).res) a =
        some (match trace.find? (fun m => m.1 == a) with
              | some m => some m.2
              | none => w) := by
  induction trace with
  | nil => intro st a w _ h; simpa [List.find?] using h
  | cons m rest ih =>
    intro st a w ha hres
    rw [List.foldl_cons]
    by_cases hm : m.1 = a
    · -- first reply for `a`: it is recorded and `a` leaves the pending set
      have hmem : m.1 ∈ st.pending := hm ▸ ha
      have hbeq : (m.1 == a) = true := by simp [hm]
      rw [handle_pos st m hmem]
      have hrec : resLookup (setRes st.res m.1 m.2) a = some (some m.2) := by
        rw [resLookup_setRes, if_pos hm, hres]; rfl
      have hout : a ∉ st.pending.filter (fun b => !(b == m.1)) := by
        intro hf
        have := List.of_mem_filter hf
        simp [hm] at this
      rw [foldl_handle_stable rest _ a hout]
      show resLookup (setRes st.res m.1 m.2) a = _
      rw [hrec]
      simp [List.find?, hbeq]
    · have hbeq : (m.1 == a) = false := by simp [hm]
      by_cases hmem : m.1 ∈ st.pending
      · rw [handle_pos st m hmem]
        have ha2 : a ∈ st.pending.filter (fun b => !(b == m.1)) := by
          refine List.mem_filter.2 ⟨ha, ?_⟩
          have : ¬ a = m.1 := fun h => hm h.symm
          simp [this]
        have hres2 : resLookup (setRes st.res m.1 m.2) a = some w := by
          rw [resLookup_setRes, if_neg hm]; exact hres
        rw [ih _ a w ha2 hres2]
        simp [List.find?, hbeq]
      · rw [handle_neg st m hmem, ih st a w ha hres]
        simp [List.find?, hbeq]

theorem mem_dedupFirst (a : String) : ∀ l : List String, a ∈ dedupFirst l ↔ a ∈ l := by
  intro l
  induction l with
  | nil => simp [dedupFirst]
  | cons b rest ih =>
    by_cases h : a = b
    · subst h; simp [dedupFirst]
    · simp [dedupFirst, List.mem_filter, ih, h]

theorem resLookup_init (a : String) :
    ∀ l : List String, a ∈ l → resLookup (l.map (fun x => (x, none))) a = some none := by
  intro l
  induction l with
  | nil => intro h; cases h
  | cons b rest ih =>
    intro h
    simp only [List.map_cons]
    rw [resLookup_cons]
    by_cases hb : b = a
    · simp [hb]
    · have : (b == a) = false := by simp [hb]
      rw [this]
      simp only [Bool.false_eq_true, if_false]
      rcases List.mem_cons.1 h with h' | h'
      · exact absurd h'.symm hb
      · exact ih h'

theorem resLookup_none_iff (a : String) :
    ∀ res : ResMap, resLookup res a = none ↔ a ∉ res.map Prod.fst := by
  intro res
  induction res with
  | nil => simp [resLookup]
  | cons p rest ih =>
    rw [resLookup_cons]
    by_cases hp : p.1 = a
    · simp [hp]
    · have : (p.1 == a) = false := by simp [hp]
      simp [this, ih, hp, Ne.symm hp]

/-! ## Claim C1 -/

/-- C1: for every address list and every handled-reply trace, the result map
of `query_reliable` has key set exactly the queried addresses (in
first-occurrence order), an address is a key iff it was queried, and an
address for which no reply was handled maps to `None` — an ordinary absent
value, not an error. -/
theorem query_keys_exact :
    (∀ (addrs : List String) (trace : List (String × String)),
      (queryReliable addrs trace).map Prod.fst = dedupFirst addrs) ∧
    (∀ (addrs : List String) (trace : List (String × String)) (a : String),
      resLookup (queryReliable addrs trace) a ≠ none ↔ a ∈ addrs) ∧
    (∀ (addrs : List String) (trace : List (String × String)) (a : String),
      a ∈ addrs → (∀ m ∈ trace, m.1 ≠ a) →
      resLookup (queryReliable addrs trace) a = some none) := by
  have hkeys : ∀ (addrs : List String) (trace : List (String × String)),
      (queryReliable addrs trace).map Prod.fst = dedupFirst addrs := by
    intro addrs trace
    unfold queryReliable
    rw [foldl_handle_keys]
    show ((dedupFirst addrs).map (fun a => (a, none))).map Prod.fst = dedupFirst addrs
    rw [List.map_map]
    rw [show (Prod.fst ∘ fun a : String => (a, (none : Option String))) = id from rfl,
      List.map_id]
  refine ⟨hkeys, ?_, ?_⟩
  · intro addrs trace a
    rw [← mem_dedupFirst a addrs, ← hkeys addrs trace]
    rw [← not_iff_not, not_not]
    exact resLookup_none_iff a (queryReliable addrs trace)
  · intro addrs trace a ha hno
    unfold queryReliable
    have hmem : a ∈ dedupFirst addrs := (mem_dedupFirst a addrs).2 ha
    have hinit : resLookup (queryInit addrs).res a = some none :=
      resLookup_init a (dedupFirst addrs) hmem
    have := foldl_handle_first trace (queryInit addrs) a none hmem hinit
    rw [this]
    have : trace.find? (fun m => m.1 == a) = none := by
      rw [List.find?_eq_none]
      intro m hm
      simp [hno m hm]
    rw [this]

/-- Witness for C1 at a concrete input: querying `["x", "y"]` against a trace
answering only `"x"` yields keys `["x", "y"]` and value `None` for `"y"`. -/
theorem query_keys_exact_witness :
    (queryReliable ["x", "y"] [("x", "5")]).map Prod.fst = dedupFirst ["x", "y"] ∧
    resLookup (queryReliable ["x", "y"] [("x", "5")]) "y" = some none :=
  ⟨query_keys_exact.1 ["x", "y"] [("x", "5")],
   query_keys_exact.2.2 ["x", "y"] [("x", "5")] "y" (by decide) (by decide)⟩

/-! ## Claim C2 -/

/-- C2 counterexample: when the transport delivers two replies for the same
address with different values, `query_reliable` keeps the FIRST value, not
the latest — the handler discards the address from `pending` on the first
reply and ignores every later one. -/
theorem query_latest_cex :
    resLookup (queryReliable ["x"] [("x", "old"), ("x", "new")]) "x" = some (some "old") ∧
    ("old" : String) ≠ "new" := by
  constructor
  · decide
  · decide

/-- C2 amended: for every queried address, the value returned by
`query_reliable` is the FIRST reply handled for that address (`None` if no
reply was handled); later duplicate or differing replies for an
already-answered address are ignored. -/
theorem query_first_value (addrs : List String) (trace : List (String × String)) (a : String)
    (h : a ∈ addrs) :
    resLookup (queryReliable addrs trace) a = some (firstReply trace a) := by
  unfold queryReliable
  have hmem : a ∈ dedupFirst addrs := (mem_dedupFirst a addrs).2 h
  have hinit : resLookup (queryInit addrs).res a = some none :=
    resLookup_init a (dedupFirst addrs) hmem
  rw [foldl_handle_first trace (queryInit addrs) a none hmem hinit]
  unfold firstReply
  cases trace.find? (fun m => m.1 == a) <;> rfl

/-- Witness for C2's amended claim at a concrete input. -/
theorem query_first_value_witness :
    resLookup (queryReliable ["x"] [("x", "old"), ("x", "new")]) "x" =
      some (firstReply [("x", "old"), ("x", "new")] "x") :=
  query_first_value ["x"] [("x", "old"), ("x", "new")] "x" (by decide)

/-! ## AddressSpaceProbe (source lines 99-115) -/

/-- The three index-format conventions probed by `fetch_wing`
(`"{i}"`, `"{i:02d}"`, `"{i:03d}"`). -/
inductive IdxFmt
  | plain
  | pad2
  | pad3
deriving DecidableEq

/-- The channel-namespace probe address for each index format
(`/ch/1/name`, `/ch/01/name`, `/ch/001/name`). -/
def chProbeAddr : IdxFmt → String
  | .plain => "/ch/1/name"
  | .pad2 => "/ch/01/name"
  | .pad3 => "/ch/001/name"

/-- The source-namespace probe address for each index format. -/
def srcProbeAddr : IdxFmt → String
  | .plain => "/src/1/name"
  | .pad2 => "/src/01/name"
  | .pad3 => "/src/001/name"

/-- The probe's fixed address batch (source lines 99-101). -/
def probeAddrs : List String :=
  (["1", "01", "001"].map (fun f =>
    ["/ch/" ++ f ++ "/name", "/src/" ++ f ++ "/name",
     "/src/" ++ f ++ "/in/grp", "/src/" ++ f ++ "/in/conn/grp"])).flatten

/-- Whether the device answered the channel probe in the given format;
`d` maps each probed address to its optional reply. -/
def answeredCh (d : String → Option String) (f : IdxFmt) : Bool :=
  (d (chProbeAddr f)).isSome

/-- Whether the device answered the source probe in the given format. -/
def answeredSrc (d : String → Option String) (f : IdxFmt) : Bool :=
  (d (srcProbeAddr f)).isSome

/-- Channel-namespace index format selection (source lines 105-106):
2-digit zero-padded iff `/ch/01/name` replied, else unpadded. -/
def chFmt (d : String → Option String) : IdxFmt :=
  if (d "/ch/01/name").isSome then .pad2 else .plain

/-- Source-namespace index format selection (source lines 108-110). -/
def srcFmt (d : String → Option String) : IdxFmt :=
  if (d "/src/001/name").isSome then .pad3
  else if (d "/src/01/name").isSome then .pad2
  else .plain

/-! ## Group-tag normalisation `norm` (source lines 54-69) -/

/-- Remove the characters `-`, space and `_`, as the chained
`.replace(...)` calls do. -/
def stripSepChars (s : String) : String :=
  String.mk (s.data.filter (fun c => !(c == '-') && !(c == ' ') && !(c == '_')))

/-- ASCII upper-casing (Python `.upper()` restricted to ASCII, which is all
the script ever feeds it). -/
def upperStr (s : String) : String :=
  String.mk (s.data.map Char.toUpper)

/-- Whether `pat` occurs as a contiguous substring, on character lists. -/
def isPrefixChars : List Char → List Char → Bool
  | [], _ => true
  | _ :: _, [] => false
  | a :: as, b :: bs => a == b && isPrefixChars as bs

def containsSubChars : List Char → List Char → Bool
  | [], pat => isPrefixChars pat []
  | c :: cs, pat => isPrefixChars pat (c :: cs) || containsSubChars cs pat

/-- Python `pat in s` (substring containment). -/
def strContains (s pat : String) : Bool :=
  containsSubChars s.data pat.data

/-- Python `char in s` for a single character. -/
def strContainsChar (s : String) (c : Char) : Bool :=
  s.data.any (fun x => x == c)

/-- The tail of `norm`: the chained membership tests on the cleaned-up tag. -/
def normTail (s : String) : String :=
  if s = "LOCAL" ∨ s = "LOC" ∨ s = "LCL" then "LCL"
  else if s = "MOD" ∨ s = "MODULE" ∨ s = "DANTE" then "MOD"
  else if s = "AUX" ∨ s = "AUXIN" then "AUX"
  else if s = "AESEBU" ∨ s = "AES" then "AES"
  else if s = "OSC" ∨ s = "OSCILLATOR" then "OSC"
  else if s = "SC" ∨ s = "STAGECONNECT" ∨ s = "STCONNECT" then "SC"
  else if s = "USB" ∨ s = "USBAUDIO" then "USB"
  else if s = "PLAY" ∨ s = "USBPLAYER" then "PLAY"
  else if s = "USR" ∨ s = "USER" ∨ s = "USERSIGNAL" then "USR"
  else if s = "CRD" ∨ s = "CARD" then "CRD"
  else s

/-- `norm(g)` (source lines 54-69): upper-case, drop separators, special-case
AES50 tags (the loop `for char in "ABC"` falls through to the tail when none
of the three letters occurs), then the alias table. -/
def norm (g : String) : String :=
  let s := stripSepChars (upperStr g)
  if strContains s "AES50" then
    if strContainsChar s 'A' then "A"
    else if strContainsChar s 'B' then "B"
    else if strContainsChar s 'C' then "C"
    else normTail s
  else normTail s

/-! ## Colors (source lines 23-37) -/

/-- `WING_COLORS`: the fixed palette keyed by numeric color code. -/
def wingColors (c : Int) : Option (Nat × Nat × Nat) :=
  if c = 0 then some (60, 60, 60)
  else if c = 1 then some (50, 50, 200)
  else if c = 2 then some (0, 100, 255)
  else if c = 3 then some (128, 0, 255)
  else if c = 4 then some (0, 200, 255)
  else if c = 5 then some (0, 200, 0)
  else if c = 6 then some (128, 255, 0)
  else if c = 7 then some (255, 255, 0)
  else if c = 8 then some (200, 100, 0)
  else if c = 9 then some (255, 0, 0)
  else if c = 10 then some (255, 128, 128)
  else if c = 11 then some (255, 0, 128)
  else if c = 12 then some (200, 100, 255)
  else if c = 13 then some (255, 180, 0)
  else if c = 14 then some (100, 150, 255)
  else if c = 15 then some (255, 140, 0)
  else if c = 16 then some (0, 180, 150)
  else if c = 17 then some (120, 120, 120)
  else if c = 18 then some (230, 230, 230)
  else none

/-- The neutral/uncolored RGB, `WING_COLORS[0]`. -/
def neutralRGB : Nat × Nat × Nat := (60, 60, 60)

/-- `HW_FIXED_COLORS`: fixed RGB per hardware group tag. -/
def hwFixedColors (g : String) : Option (Nat × Nat × Nat) :=
  if g = "A" then some (0, 100, 255)
  else if g = "B" then some (0, 200, 0)
  else if g = "C" then some (128, 0, 255)
  else if g = "LCL" then some (0, 180, 150)
  else if g = "MOD" then some (255, 128, 0)
  else if g = "CRD" then some (200, 200, 200)
  else if g = "USB" then some (200, 200, 200)
  else if g = "AUX" then some (255, 255, 0)
  else if g = "AES" then some (255, 0, 255)
  else if g = "OSC" then some (0, 255, 255)
  else if g = "SC" then some (0, 150, 255)
  else if g = "PLAY" then some (100, 255, 100)
  else if g = "USR" then some (255, 100, 100)
  else if g = "MAIN" then some (255, 50, 50)
  else if g = "BUS" then some (255, 150, 0)
  else if g = "MTX" then some (255, 100, 200)
  else none

/-- The mix-bus group tags. -/
def busGroups : List String := ["MAIN", "BUS", "MTX"]

/-- `is_off(val)` (source lines 162-163). -/
def isOffVal (v : String) : Bool :=
  ["0", "0.0", "OFF", "false", "False", "0.000000"].contains v

/-- Python `f"{n:02d}"`: zero-pad to width 2 (a sign counts toward the
width, as in Python). -/
def fmt02 (n : Int) : String :=
  let s := toString n
  if s.length < 2 then "0" ++ s else s

/-! ## RoutingGraphResolver: per-slot resolution (source lines 196-299) -/

/-- One output Track record, as assembled at source lines 293-299 (with the
diagnostic keys `norm_grp`/`in_num` still present; the script pops them only
after the stereo pass). -/
structure Track where
  slot : Nat
  name : String
  color_r : Nat
  color_g : Nat
  color_b : Nat
  norm_grp : String
  in_num : Int
  ch_name : String
  src_name : String
  hw_name : String
  reaper_input : Int
  stereo_L : Bool
  stereo_R : Bool
  is_empty_routing : Bool
deriving DecidableEq, Inhabited

/-- The static configuration consumed by `fetch_wing`. -/
structure Cfg where
  interface : String
  out_count : Nat
  name_mode : String
  force_hw_colors : Bool

/-- Address of an output slot's routing-pointer group. -/
def ioOutGrp (cfg : Cfg) (s : Nat) : String :=
  "/io/out/" ++ cfg.interface ++ "/" ++ toString s ++ "/grp"

/-- Address of an output slot's routing-pointer index. -/
def ioOutIn (cfg : Cfg) (s : Nat) : String :=
  "/io/out/" ++ cfg.interface ++ "/" ++ toString s ++ "/in"

/-- `u_grp` (source lines 198-199): normalised routing-pointer group of slot
`s`, read from the merged reply map `r` (`none` = no reply). -/
def uGrp (cfg : Cfg) (r : String → Option String) (s : Nat) : String :=
  norm (pyStrip (pyOr (r (ioOutGrp cfg s)) ""))

/-- `u_in` (source lines 200-201): routing-pointer index of slot `s`, with
fallback to the slot number when missing or unparseable. -/
def uIn (cfg : Cfg) (r : String → Option String) (s : Nat) : Int :=
  (pyInt (pyOr (r (ioOutIn cfg s)) (toString s))).getD (s : Int)

/-- The CH/AUX direct-channel data of one slot (source lines 205-228). -/
structure DirectInfo where
  is_direct : Bool
  nm : String
  col : Int
  off : Bool
  hw_grp : String
  hw_in : Int

/-- Source lines 211-228: when the slot points at a CH or AUX strip, fetch
the strip's own name/color/mute and, when the strip has an upstream
`in/conn` pointer, make that the effective hardware reference. -/
def chAuxDirect (r : String → Option String) (u_grp : String) (u_in : Int) : DirectInfo :=
  if u_grp = "CH" ∨ u_grp = "AUX" then
    let p := if u_grp = "CH" then "ch" else "aux"
    let n1 := pyStrip (pyOr (r ("/" ++ p ++ "/" ++ toString u_in ++ "/name")) "")
    let nm := if n1 ≠ "" then n1
      else pyStrip (pyOr (r ("/" ++ p ++ "/" ++ fmt02 u_in ++ "/name")) "")
    let col := (pyInt (pyOr (r ("/" ++ p ++ "/" ++ toString u_in ++ "/col"))
      (pyOr (r ("/" ++ p ++ "/" ++ fmt02 u_in ++ "/col")) "0"))).getD 0
    let light := pyOr (r ("/" ++ p ++ "/" ++ toString u_in ++ "/led"))
      (pyOr (r ("/" ++ p ++ "/" ++ fmt02 u_in ++ "/led"))
        (pyOr (r ("/" ++ p ++ "/" ++ toString u_in ++ "/light"))
          (pyOr (r ("/" ++ p ++ "/" ++ fmt02 u_in ++ "/light")) "1")))
    let h_grp := norm (pyOr (r ("/" ++ p ++ "/" ++ toString u_in ++ "/in/conn/grp"))
      (pyOr (r ("/" ++ p ++ "/" ++ fmt02 u_in ++ "/in/conn/grp")) ""))
    let h_in := pyOr (r ("/" ++ p ++ "/" ++ toString u_in ++ "/in/conn/in"))
      (pyOr (r ("/" ++ p ++ "/" ++ fmt02 u_in ++ "/in/conn/in")) "")
    if h_grp ≠ "" ∧ h_in ≠ "" then
      ⟨true, nm, col, isOffVal light, h_grp, (pyInt h_in).getD u_in⟩
    else
      ⟨true, nm, col, isOffVal light, u_grp, u_in⟩
  else
    ⟨false, "", 0, false, u_grp, u_in⟩

/-- Intermediate per-slot data, just before color resolution: the values of
`is_empty_routing`, `hw_grp`, `hw_in`, `name`, `col`, `force_uncolored`,
`ch_str`, `src_str`, `hw_str` at source line 282. -/
structure SlotInfo where
  is_empty : Bool
  hw_grp : String
  hw_in : Int
  name : String
  col : Int
  force_uncolored : Bool
  ch_str : String
  src_str : String
  hw_str : String

/-- Metadata triple (name, color code, mute/off flag), the value type of the
`ch_to_hw` / `src_to_hw` maps. -/
abbrev Meta := String × Int × Bool

/-- Source lines 197-281: resolve one output slot. `chMap`/`srcMap` model
the `ch_to_hw`/`src_to_hw` dictionaries (built by `gather_channels` /
`gather_sources`, which iterate a Python set in unspecified order, hence
kept as parameters). -/
def slotInfo (cfg : Cfg) (r : String → Option String)
    (chMap srcMap : String → Int → Option Meta) (s : Nat) : SlotInfo :=
  let u_grp := uGrp cfg r s
  let u_in := uIn cfg r s
  let is_empty := u_grp = "OFF" ∨ u_grp = ""
  let d := chAuxDirect r u_grp u_in
  let hw_grp := d.hw_grp
  let hw_in := d.hw_in
  if is_empty then
    ⟨true, hw_grp, hw_in, "(INPUT " ++ toString s ++ " NOT ROUTED)", 0, true, "-", "-", "-"⟩
  else if hw_grp = "MAIN" ∨ hw_grp = "BUS" ∨ hw_grp = "MTX" then
    let m_idx := (hw_in - 1).fdiv 2 + 1
    let lg := if hw_grp = "MAIN" then "main" else if hw_grp = "BUS" then "bus" else "mtx"
    let actual_name := pyStrip (pyOr (r ("/" ++ lg ++ "/" ++ toString m_idx ++ "/name"))
      (pyOr (r ("/" ++ lg ++ "/" ++ fmt02 m_idx ++ "/name")) ""))
    let col := (pyInt (pyOr (r ("/" ++ lg ++ "/" ++ toString m_idx ++ "/col"))
      (pyOr (r ("/" ++ lg ++ "/" ++ fmt02 m_idx ++ "/col")) "0"))).getD 0
    let side := if hw_in % 2 ≠ 0 then " L" else " R"
    let ch_str := if actual_name ≠ "" then actual_name else "-"
    let hw_str := hw_grp ++ " " ++ toString m_idx ++ side
    if cfg.name_mode = "CH" then
      let name := if actual_name ≠ "" then actual_name ++ side else ""
      let light_val := pyOr (r ("/" ++ lg ++ "/" ++ toString m_idx ++ "/led"))
        (pyOr (r ("/" ++ lg ++ "/" ++ fmt02 m_idx ++ "/led"))
          (pyOr (r ("/" ++ lg ++ "/" ++ toString m_idx ++ "/light"))
            (pyOr (r ("/" ++ lg ++ "/" ++ fmt02 m_idx ++ "/light")) "1")))
      ⟨false, hw_grp, hw_in, name, col, isOffVal light_val, ch_str, "-", hw_str⟩
    else
      ⟨false, hw_grp, hw_in, hw_grp ++ " " ++ toString m_idx ++ side, col, false,
        ch_str, "-", hw_str⟩
  else
    let ch_str :=
      if d.is_direct ∧ d.nm ≠ "" then d.nm
      else match chMap hw_grp hw_in with
        | some (n, _, _) => if n ≠ "" then n else "-"
        | none => "-"
    let src_str := match srcMap hw_grp hw_in with
      | some (n, _, _) => if n ≠ "" then n else "-"
      | none => "-"
    let hw_str := hw_grp ++ " " ++ toString hw_in
    let ncf : Meta :=
      if cfg.name_mode = "CH" then
        if d.is_direct then (d.nm, d.col, d.off)
        else match chMap hw_grp hw_in with
          | some v => v
          | none => ("", 0, false)
      else if cfg.name_mode = "SRC" then
        match srcMap hw_grp hw_in with
        | some (n, c, _) => (n, c, false)
        | none => ("", 0, false)
      else if cfg.name_mode = "HW" then
        (hw_grp ++ " " ++ toString hw_in, 0, false)
      else ("", 0, false)
    let name := if ncf.1 = "" ∧ cfg.name_mode = "HW" then hw_grp ++ " " ++ toString hw_in
      else ncf.1
    ⟨false, hw_grp, hw_in, name, ncf.2.1, ncf.2.2, ch_str, src_str, hw_str⟩

/-- `use_hw_color` (source lines 282-284). -/
def useHwColor (cfg : Cfg) (grp : String) : Bool :=
  cfg.force_hw_colors || cfg.name_mode == "HW" ||
    (cfg.name_mode == "SRC" && busGroups.contains grp)

/-- Color resolution (source lines 286-291): fixed hardware color when
active and available, else neutral when `force_uncolored`, else the palette
with neutral default. -/
def slotRGB (cfg : Cfg) (si : SlotInfo) : Nat × Nat × Nat :=
  match (if useHwColor cfg si.hw_grp && !si.is_empty then hwFixedColors si.hw_grp else none) with
  | some rgb => rgb
  | none => if si.force_uncolored then neutralRGB else (wingColors si.col).getD neutralRGB

/-- Source lines 293-299: assemble the Track record for one slot. -/
def resolveSlot (cfg : Cfg) (r : String → Option String)
    (chMap srcMap : String → Int → Option Meta) (s : Nat) : Track :=
  let si := slotInfo cfg r chMap srcMap s
  let rgb := slotRGB cfg si
  { slot := s, name := si.name,
    color_r := rgb.1, color_g := rgb.2.1, color_b := rgb.2.2,
    norm_grp := si.hw_grp, in_num := si.hw_in,
    ch_name := si.ch_str, src_name := si.src_str, hw_name := si.hw_str,
    reaper_input := (s : Int) - 1, stereo_L := false, stereo_R := false,
    is_empty_routing := si.is_empty }

/-- The resolved track list, slots 1..OUT_COUNT (source line 197). -/
def tracksFor (cfg : Cfg) (r : String → Option String)
    (chMap srcMap : String → Int → Option Meta) : List Track :=
  (List.range cfg.out_count).map (fun k => resolveSlot cfg r chMap srcMap (k + 1))

/-! ## Hardware-reference gathering (source lines 136-151) -/

/-- One candidate hardware reference from a raw (group, index) string pair:
kept only when both are non-empty, the group is not one of the logical
categories, and the index parses as an integer (`try/except` skip). -/
def refCandidate (raw_g n_str : String) : Option (String × Int) :=
  if raw_g ≠ "" ∧ n_str ≠ "" ∧
      ¬ (raw_g = "MAIN" ∨ raw_g = "BUS" ∨ raw_g = "MTX" ∨ raw_g = "CH" ∨ raw_g = "AUX"
        ∨ raw_g = "OFF") then
    (pyInt n_str).map (fun n => (raw_g, n))
  else none

/-- Candidate hardware reference contributed by an output slot
(source lines 137-142). -/
def refOfOut (cfg : Cfg) (r : String → Option String) (s : Nat) : Option (String × Int) :=
  refCandidate (pyStrip (pyOr (r (ioOutGrp cfg s)) ""))
    (pyStrip (pyOr (r (ioOutIn cfg s)) ""))

/-- Candidate hardware reference contributed by a channel/aux strip's
upstream pointer, for one index spelling (source lines 144-151). -/
def refOfStrip (r : String → Option String) (p fs : String) : Option (String × Int) :=
  refCandidate (pyStrip (pyOr (r ("/" ++ p ++ "/" ++ fs ++ "/in/conn/grp")) ""))
    (pyStrip (pyOr (r ("/" ++ p ++ "/" ++ fs ++ "/in/conn/in")) ""))

/-! ## StereoPairingPass (source lines 301-341) -/

/-- Replace all non-overlapping occurrences of `pat` left-to-right on
character lists (Python `str.replace` for a non-empty pattern); fuel-driven
so the recursion is structural, with fuel at least the list length. -/
def replGo (pat rep : List Char) : Nat → List Char → List Char
  | _, [] => []
  | 0, l => l
  | fuel + 1, c :: cs =>
    if isPrefixChars pat (c :: cs) && !pat.isEmpty then
      rep ++ replGo pat rep fuel (List.drop (pat.length - 1) cs)
    else
      c :: replGo pat rep fuel cs

/-- Python `s.replace(pat, rep)` (used only with the non-empty pattern
`" L"`). -/
def pyReplace (s pat rep : String) : String :=
  String.mk (replGo pat.data rep.data s.data.length s.data)

/-- Python `s.endswith(suf)`. -/
def strEndsWith (s suf : String) : Bool :=
  isPrefixChars suf.data.reverse s.data.reverse

/-- Python `s[:-n]` for `n ≥ 1`: drop the last `n` characters. -/
def dropLast (s : String) (n : Nat) : String :=
  String.mk (s.data.take (s.data.length - n))

/-- The stereo-pair condition (source lines 306-317): either the display
names form an `" L"`/`" R"` pair, or the two tracks share the effective
hardware group with consecutive odd/even indices — which alone suffices for
the mix-bus groups and otherwise additionally requires the referenced
source's mode metadata to equal `"ST"`. `sm` models `src_modes.get`
(source line 160). -/
def isStereoPair (sm : String → Int → Option String) (t1 t2 : Track) : Bool :=
  if !(t1.name == "") && strEndsWith t1.name " L"
      && (t2.name == pyReplace t1.name " L" " R") then
    true
  else if t1.norm_grp == t2.norm_grp then
    if busGroups.contains t1.norm_grp then
      t1.in_num % 2 == 1 && t2.in_num == t1.in_num + 1
    else
      t1.in_num % 2 == 1 && t2.in_num == t1.in_num + 1
        && sm t1.norm_grp t1.in_num == some "ST"
  else false

/-- The left-track label rewrite (source lines 324-340): a label equal to
the bare `"GROUP INDEX"` becomes the `"GROUP INDEX-INDEX+1"` range label,
else a trailing `" L"` (or bare `"L"`) is stripped. -/
def stripLabel (grp : String) (inn : Int) (v : String) : String :=
  if v = grp ++ " " ++ toString inn then
    grp ++ " " ++ toString inn ++ "-" ++ toString (inn + 1)
  else if strEndsWith v " L" then dropLast v 2
  else if strEndsWith v "L" then dropLast v 1
  else v

/-- The mutation applied to the left track of a matched pair (source lines
320-340): set the left-role flag, remap the playback-engine input index to
`1024 + (slot - 1)`, and rewrite the display name (when non-empty) and each
diagnostic label (when not `"-"`), stripping the result. -/
def applyLeft (t : Track) : Track :=
  { t with
    stereo_L := true,
    reaper_input := 1024 + ((t.slot : Int) - 1),
    name := if t.name ≠ "" then pyStrip (stripLabel t.norm_grp t.in_num t.name) else t.name,
    ch_name := if t.ch_name ≠ "-" then pyStrip (stripLabel t.norm_grp t.in_num t.ch_name)
      else t.ch_name,
    src_name := if t.src_name ≠ "-" then pyStrip (stripLabel t.norm_grp t.in_num t.src_name)
      else t.src_name,
    hw_name := if t.hw_name ≠ "-" then pyStrip (stripLabel t.norm_grp t.in_num t.hw_name)
      else t.hw_name }

/-- One step of the forward pairing scan: `cur` is `tracks[i]` with all
mutations from earlier iterations applied; the list argument holds
`tracks[i+1..]`. The loop skips when `tracks[i]` is unrouted or already the
right half of a pair, skips when `tracks[i+1]` is unrouted, and on a match
rewrites the left track and sets the right track's right-role flag. -/
def scanGo (sm : String → Int → Option String) (cur : Track) : List Track → List Track
  | [] => [cur]
  | t2 :: rest =>
    if cur.is_empty_routing || cur.stereo_R then cur :: scanGo sm t2 rest
    else if t2.is_empty_routing then cur :: scanGo sm t2 rest
    else if isStereoPair sm cur t2 then
      applyLeft cur :: scanGo sm { t2 with stereo_R := true } rest
    else cur :: scanGo sm t2 rest

/-- The in-place stereo pairing loop (source lines 301-341) as a function on
track lists. -/
def stereoScan (sm : String → Int → Option String) : List Track → List Track
  | [] => []
  | t :: rest => scanGo sm t rest

/-- The full resolution run: per-slot resolution followed by the stereo
pairing pass. -/
def fullRun (cfg : Cfg) (r : String → Option String)
    (chMap srcMap : String → Int → Option Meta)
    (sm : String → Int → Option String) : List Track :=
  stereoScan sm (tracksFor cfg r chMap srcMap)

/-! ### Scan lemmas -/

theorem scanGo_head (sm : String → Int → Option String) (cur : Track) (l : List Track) :
    ∃ b tl, scanGo sm cur l = b :: tl ∧
      b.stereo_R = cur.stereo_R ∧ b.is_empty_routing = cur.is_empty_routing := by
  cases l with
  | nil => exact ⟨cur, [], rfl, rfl, rfl⟩
  | cons t2 rest =>
    simp only [scanGo]
    split
    · exact ⟨cur, _, rfl, rfl, rfl⟩
    · split
      · exact ⟨cur, _, rfl, rfl, rfl⟩
      · split
        · exact ⟨applyLeft cur, _, rfl, rfl, rfl⟩
        · exact ⟨cur, _, rfl, rfl, rfl⟩

theorem scanGo_length (sm : String → Int → Option String) :
    ∀ (l : List Track) (cur : Track), (scanGo sm cur l).length = l.length + 1 := by
  intro l
  induction l with
  | nil => intro cur; rfl
  | cons t2 rest ih =>
    intro cur
    simp only [scanGo]
    split
    · simp [ih]
    · split
      · simp [ih]
      · split
        · simp [ih]
        · simp [ih]

theorem stereoScan_length (sm : String → Int → Option String) (l : List Track) :
    (stereoScan sm l).length = l.length := by
  cases l with
  | nil => rfl
  | cons t rest => simp [stereoScan, scanGo_length]

theorem isStereoPair_setR (sm : String → Int → Option String) (t u : Track) (b : Bool) :
    isStereoPair sm { t with stereo_R := b } u = isStereoPair sm t u := rfl

theorem applyLeft_stereo_R (t : Track) : (applyLeft t).stereo_R = t.stereo_R := rfl

theorem setR_self (t : Track) (h : t.stereo_R = true) : { t with stereo_R := true } = t := by
  cases t
  simp_all

/-! ## Claim C8 -/

/-- A device that answers only the 3-digit zero-padded channel-name probe. -/
def devPad3Only : String → Option String :=
  fun a => if a = "/ch/001/name" then some "Ch 1" else none

/-- C8 counterexample: the probe also sends the 3-digit channel probe
`/ch/001/name`, but never consults its reply. On a device that answers
exactly that probe — a channel-namespace probe — the selected channel
format is the unpadded one, which is not the format the device answered in,
and the no-reply default clause does not apply. -/
theorem probe_pad3_ignored_cex :
    chFmt devPad3Only = IdxFmt.plain ∧
    answeredCh devPad3Only IdxFmt.pad3 = true ∧
    answeredCh devPad3Only IdxFmt.plain = false ∧
    answeredCh devPad3Only IdxFmt.pad2 = false := by
  refine ⟨?_, ?_, ?_, ?_⟩ <;> decide

/-- C8 amended: the channel namespace selects 2-digit zero-padded exactly
when the 2-digit probe replied and defaults to unpadded otherwise (a 3-digit
channel reply is ignored); the source namespace selects 3-digit when the
3-digit probe replied, else 2-digit when that probe replied, else unpadded.
In particular, a device answering only the 2-digit channel probe selects the
2-digit format and no other, and a namespace with no reply defaults to
unpadded. -/
theorem probe_fmt_selection (d : String → Option String) :
    ((∀ f, answeredCh d f = false) → chFmt d = IdxFmt.plain) ∧
    (answeredCh d IdxFmt.pad2 = true → chFmt d = IdxFmt.pad2) ∧
    (answeredCh d IdxFmt.pad2 = false → chFmt d = IdxFmt.plain) ∧
    ((∀ f, answeredSrc d f = false) → srcFmt d = IdxFmt.plain) ∧
    (answeredSrc d IdxFmt.pad3 = true → srcFmt d = IdxFmt.pad3) ∧
    (answeredSrc d IdxFmt.pad3 = false → answeredSrc d IdxFmt.pad2 = true →
      srcFmt d = IdxFmt.pad2) ∧
    (answeredSrc d IdxFmt.pad3 = false → answeredSrc d IdxFmt.pad2 = false →
      srcFmt d = IdxFmt.plain) := by
  refine ⟨?_, ?_, ?_, ?_, ?_, ?_, ?_⟩
  · intro h
    have h2 := h IdxFmt.pad2
    simp only [answeredCh, chProbeAddr] at h2
    simp [chFmt, h2]
  · intro h
    simp only [answeredCh, chProbeAddr] at h
    simp [chFmt, h]
  · intro h
    simp only [answeredCh, chProbeAddr] at h
    simp [chFmt, h]
  · intro h
    have h3 := h IdxFmt.pad3
    have h2 := h IdxFmt.pad2
    simp only [answeredSrc, srcProbeAddr] at h3 h2
    simp [srcFmt, h3, h2]
  · intro h
    simp only [answeredSrc, srcProbeAddr] at h
    simp [srcFmt, h]
  · intro h3 h2
    simp only [answeredSrc, srcProbeAddr] at h3 h2
    simp [srcFmt, h3, h2]
  · intro h3 h2
    simp only [answeredSrc, srcProbeAddr] at h3 h2
    simp [srcFmt, h3, h2]

/-- A device that answers only the 2-digit zero-padded channel-name probe. -/
def devPad2Only : String → Option String :=
  fun a => if a = "/ch/01/name" then some "Ch 1" else none

/-- A device that answers no probe at all. -/
def devSilent : String → Option String := fun _ => none

/-- Witness for C8's amended claim: the silent device defaults both
namespaces to unpadded, and the 2-digit-only device selects the 2-digit
channel format. -/
theorem probe_fmt_selection_witness :
    chFmt devSilent = IdxFmt.plain ∧ srcFmt devSilent = IdxFmt.plain ∧
    chFmt devPad2Only = IdxFmt.pad2 :=
  ⟨(probe_fmt_selection devSilent).1 (fun f => by cases f <;> decide),
   (probe_fmt_selection devSilent).2.2.2.1 (fun f => by cases f <;> decide),
   (probe_fmt_selection devPad2Only).2.1 (by decide)⟩

/-! ## Claim C4 -/

/-- C4: a slot whose routing-pointer group normalises to the OFF sentinel or
is absent/empty is unrouted: `is_empty_routing` is true, the name is the
generated `"(INPUT s NOT ROUTED)"` placeholder, and the RGB color is the
neutral (60, 60, 60) — for every reply map, every metadata map, every
display-name mode and every force-hardware-colors setting. -/
theorem slot_off_unrouted (cfg : Cfg) (r : String → Option String)
    (chMap srcMap : String → Int → Option Meta) (s : Nat)
    (h : uGrp cfg r s = "OFF" ∨ uGrp cfg r s = "") :
    (resolveSlot cfg r chMap srcMap s).is_empty_routing = true ∧
    (resolveSlot cfg r chMap srcMap s).name = "(INPUT " ++ toString s ++ " NOT ROUTED)" ∧
    (resolveSlot cfg r chMap srcMap s).color_r = 60 ∧
    (resolveSlot cfg r chMap srcMap s).color_g = 60 ∧
    (resolveSlot cfg r chMap srcMap s).color_b = 60 := by
  have hsi : slotInfo cfg r chMap srcMap s =
      ⟨true, (chAuxDirect r (uGrp cfg r s) (uIn cfg r s)).hw_grp,
        (chAuxDirect r (uGrp cfg r s) (uIn cfg r s)).hw_in,
        "(INPUT " ++ toString s ++ " NOT ROUTED)", 0, true, "-", "-", "-"⟩ := by
    simp only [slotInfo]
    rw [if_pos h]
  simp [resolveSlot, hsi, slotRGB, neutralRGB]

/-- Witness for C4 at a concrete input: no reply at all for slot 7. -/
theorem slot_off_unrouted_witness :
    (resolveSlot ⟨"USB", 48, "CH", false⟩ (fun _ => none)
      (fun _ _ => none) (fun _ _ => none) 7).name = "(INPUT " ++ toString 7 ++ " NOT ROUTED)" ∧
    (resolveSlot ⟨"USB", 48, "CH", false⟩ (fun _ => none)
      (fun _ _ => none) (fun _ _ => none) 7).color_r = 60 :=
  ⟨(slot_off_unrouted ⟨"USB", 48, "CH", false⟩ (fun _ => none)
      (fun _ _ => none) (fun _ _ => none) 7 (Or.inr (by decide))).2.1,
   (slot_off_unrouted ⟨"USB", 48, "CH", false⟩ (fun _ => none)
      (fun _ _ => none) (fun _ _ => none) 7 (Or.inr (by decide))).2.2.1⟩

/-! ## Claim C5 -/

/-- Configuration for the C5 counterexample's first instance: channel-first
naming with the force-hardware-colors flag set. -/
def cfgMuted : Cfg := ⟨"USB", 48, "CH", true⟩

/-- Replies for the C5 counterexample's first instance: slot 1 routed
directly to channel 1, whose strip is muted (led "0") and patched from
hardware input MOD 5. -/
def rMuted : String → Option String := fun a =>
  if a = "/io/out/USB/1/grp" then some "CH"
  else if a = "/io/out/USB/1/in" then some "1"
  else if a = "/ch/1/name" then some "Voc"
  else if a = "/ch/1/led" then some "0"
  else if a = "/ch/1/in/conn/grp" then some "MOD"
  else if a = "/ch/1/in/conn/in" then some "5"
  else none

/-- Configuration for the C5 counterexample's second instance: source-first
naming, force-hardware-colors off. -/
def cfgSrcMuted : Cfg := ⟨"USB", 48, "SRC", false⟩

/-- Replies for the C5 counterexample's second instance: slot 1 routed
directly to hardware input MOD 5. -/
def rSrcMuted : String → Option String := fun a =>
  if a = "/io/out/USB/1/grp" then some "MOD"
  else if a = "/io/out/USB/1/in" then some "5"
  else none

/-- Source metadata for the C5 counterexample's second instance: MOD 5 is
named "Src", has color code 9 and its mute/off flag SET. -/
def srcMapMuted : String → Int → Option Meta := fun g i =>
  if g = "MOD" ∧ i = 5 then some ("Src", 9, true) else none

/-- C5 counterexample, two instances. (1) In channel-first mode with
force-hardware-colors on, a routed slot whose resolved metadata has the
mute/off flag set (`force_uncolored = true`) gets the fixed hardware color
of its effective group (MOD ↦ (255, 128, 0)), not the neutral RGB: the
fixed-color branch (line 286) precedes the mute branch. (2) In source-first
mode the mute flag of the resolved source metadata is discarded
(`name, col, _ = src_to_hw[hw_key]`, line 275): a muted MOD 5 source with
color code 9 renders its palette color (255, 0, 0), not the neutral RGB,
even though the fixed-color path is off. -/
theorem muted_not_neutral_cex :
    ((slotInfo cfgMuted rMuted (fun _ _ => none) (fun _ _ => none) 1).force_uncolored = true ∧
     (slotInfo cfgMuted rMuted (fun _ _ => none) (fun _ _ => none) 1).is_empty = false ∧
     (resolveSlot cfgMuted rMuted (fun _ _ => none) (fun _ _ => none) 1).color_r = 255 ∧
     (resolveSlot cfgMuted rMuted (fun _ _ => none) (fun _ _ => none) 1).color_g = 128 ∧
     (resolveSlot cfgMuted rMuted (fun _ _ => none) (fun _ _ => none) 1).color_b = 0 ∧
     ((255 : Nat), (128 : Nat), (0 : Nat)) ≠ neutralRGB) ∧
    (srcMapMuted "MOD" 5 = some ("Src", 9, true) ∧
     (slotInfo cfgSrcMuted rSrcMuted (fun _ _ => none) srcMapMuted 1).is_empty = false ∧
     (resolveSlot cfgSrcMuted rSrcMuted (fun _ _ => none) srcMapMuted 1).color_r = 255 ∧
     (resolveSlot cfgSrcMuted rSrcMuted (fun _ _ => none) srcMapMuted 1).color_g = 0 ∧
     (resolveSlot cfgSrcMuted rSrcMuted (fun _ _ => none) srcMapMuted 1).color_b = 0 ∧
     useHwColor cfgSrcMuted
       (slotInfo cfgSrcMuted rSrcMuted (fun _ _ => none) srcMapMuted 1).hw_grp = false ∧
     ((255 : Nat), (0 : Nat), (0 : Nat)) ≠ neutralRGB) := by
  refine ⟨⟨?_, ?_, ?_, ?_, ?_, ?_⟩, ?_, ?_, ?_, ?_, ?_, ?_, ?_⟩ <;> decide

theorem slotRGB_fu (cfg : Cfg) (si : SlotInfo) (h1 : si.is_empty = false)
    (h2 : si.force_uncolored = true)
    (h3 : useHwColor cfg si.hw_grp = false ∨ hwFixedColors si.hw_grp = none) :
    slotRGB cfg si = neutralRGB := by
  unfold slotRGB
  rcases h3 with h3 | h3 <;> simp [h1, h2, h3]

theorem slotRGB_palette (cfg : Cfg) (si : SlotInfo) (h1 : si.is_empty = false)
    (h2 : si.force_uncolored = false)
    (h3 : useHwColor cfg si.hw_grp = false ∨ hwFixedColors si.hw_grp = none) :
    slotRGB cfg si = (wingColors si.col).getD neutralRGB := by
  unfold slotRGB
  rcases h3 with h3 | h3 <;> simp [h1, h2, h3]

/-- C5 amended: for a routed slot resolved via a non-bus effective hardware
reference, the mute/off flag of the resolved metadata forces the neutral RGB
only in channel-first display mode, and only when the fixed-hardware-color
path is not taken (the force/mode condition is off, or the group has no
fixed color): (1) a directly-routed CH/AUX strip whose own mute flag is set
yields neutral; (2) a slot resolved through the channel map whose entry's
mute flag is set yields neutral; (3) in source-first mode the metadata's
mute flag is discarded, and a muted source renders its palette color; and
whenever the fixed-hardware-color path is active with a fixed assignment,
the fixed color wins over the mute flag. -/
theorem muted_color_by_mode :
    (∀ (cfg : Cfg) (r : String → Option String) (chMap srcMap : String → Int → Option Meta)
      (s : Nat), cfg.name_mode = "CH" →
      ¬ (uGrp cfg r s = "OFF" ∨ uGrp cfg r s = "") →
      ¬ ((chAuxDirect r (uGrp cfg r s) (uIn cfg r s)).hw_grp = "MAIN" ∨
         (chAuxDirect r (uGrp cfg r s) (uIn cfg r s)).hw_grp = "BUS" ∨
         (chAuxDirect r (uGrp cfg r s) (uIn cfg r s)).hw_grp = "MTX") →
      (chAuxDirect r (uGrp cfg r s) (uIn cfg r s)).is_direct = true →
      (chAuxDirect r (uGrp cfg r s) (uIn cfg r s)).off = true →
      (useHwColor cfg (chAuxDirect r (uGrp cfg r s) (uIn cfg r s)).hw_grp = false ∨
        hwFixedColors (chAuxDirect r (uGrp cfg r s) (uIn cfg r s)).hw_grp = none) →
      slotRGB cfg (slotInfo cfg r chMap srcMap s) = neutralRGB) ∧
    (∀ (cfg : Cfg) (r : String → Option String) (chMap srcMap : String → Int → Option Meta)
      (s : Nat) (n : String) (c : Int), cfg.name_mode = "CH" →
      ¬ (uGrp cfg r s = "OFF" ∨ uGrp cfg r s = "") →
      ¬ ((chAuxDirect r (uGrp cfg r s) (uIn cfg r s)).hw_grp = "MAIN" ∨
         (chAuxDirect r (uGrp cfg r s) (uIn cfg r s)).hw_grp = "BUS" ∨
         (chAuxDirect r (uGrp cfg r s) (uIn cfg r s)).hw_grp = "MTX") →
      (chAuxDirect r (uGrp cfg r s) (uIn cfg r s)).is_direct = false →
      chMap (chAuxDirect r (uGrp cfg r s) (uIn cfg r s)).hw_grp
        (chAuxDirect r (uGrp cfg r s) (uIn cfg r s)).hw_in = some (n, c, true) →
      (useHwColor cfg (chAuxDirect r (uGrp cfg r s) (uIn cfg r s)).hw_grp = false ∨
        hwFixedColors (chAuxDirect r (uGrp cfg r s) (uIn cfg r s)).hw_grp = none) →
      slotRGB cfg (slotInfo cfg r chMap srcMap s) = neutralRGB) ∧
    (∀ (cfg : Cfg) (r : String → Option String) (chMap srcMap : String → Int → Option Meta)
      (s : Nat) (n : String) (c : Int), cfg.name_mode = "SRC" →
      ¬ (uGrp cfg r s = "OFF" ∨ uGrp cfg r s = "") →
      ¬ ((chAuxDirect r (uGrp cfg r s) (uIn cfg r s)).hw_grp = "MAIN" ∨
         (chAuxDirect r (uGrp cfg r s) (uIn cfg r s)).hw_grp = "BUS" ∨
         (chAuxDirect r (uGrp cfg r s) (uIn cfg r s)).hw_grp = "MTX") →
      srcMap (chAuxDirect r (uGrp cfg r s) (uIn cfg r s)).hw_grp
        (chAuxDirect r (uGrp cfg r s) (uIn cfg r s)).hw_in = some (n, c, true) →
      (useHwColor cfg (chAuxDirect r (uGrp cfg r s) (uIn cfg r s)).hw_grp = false ∨
        hwFixedColors (chAuxDirect r (uGrp cfg r s) (uIn cfg r s)).hw_grp = none) →
      slotRGB cfg (slotInfo cfg r chMap srcMap s) = (wingColors c).getD neutralRGB) := by
  refine ⟨?_, ?_, ?_⟩
  · intro cfg r chMap srcMap s hmode hne hnb hdir hoff hfix
    have hie : (slotInfo cfg r chMap srcMap s).is_empty = false := by
      simp only [slotInfo]
      rw [if_neg hne, if_neg hnb]
    have hhg : (slotInfo cfg r chMap srcMap s).hw_grp =
        (chAuxDirect r (uGrp cfg r s) (uIn cfg r s)).hw_grp := by
      simp only [slotInfo]
      rw [if_neg hne, if_neg hnb]
    have hfu : (slotInfo cfg r chMap srcMap s).force_uncolored = true := by
      simp only [slotInfo]
      rw [if_neg hne, if_neg hnb]
      simp [hmode, hdir, hoff]
    rcases hfix with hfix | hfix
    · exact slotRGB_fu cfg _ hie hfu (Or.inl (by rw [hhg]; exact hfix))
    · exact slotRGB_fu cfg _ hie hfu (Or.inr (by rw [hhg]; exact hfix))
  · intro cfg r chMap srcMap s n c hmode hne hnb hdir hch hfix
    have hie : (slotInfo cfg r chMap srcMap s).is_empty = false := by
      simp only [slotInfo]
      rw [if_neg hne, if_neg hnb]
    have hhg : (slotInfo cfg r chMap srcMap s).hw_grp =
        (chAuxDirect r (uGrp cfg r s) (uIn cfg r s)).hw_grp := by
      simp only [slotInfo]
      rw [if_neg hne, if_neg hnb]
    have hfu : (slotInfo cfg r chMap srcMap s).force_uncolored = true := by
      simp only [slotInfo]
      rw [if_neg hne, if_neg hnb]
      simp [hmode, hdir, hch]
    rcases hfix with hfix | hfix
    · exact slotRGB_fu cfg _ hie hfu (Or.inl (by rw [hhg]; exact hfix))
    · exact slotRGB_fu cfg _ hie hfu (Or.inr (by rw [hhg]; exact hfix))
  · intro cfg r chMap srcMap s n c hmode hne hnb hsrc hfix
    have hie : (slotInfo cfg r chMap srcMap s).is_empty = false := by
      simp only [slotInfo]
      rw [if_neg hne, if_neg hnb]
    have hhg : (slotInfo cfg r chMap srcMap s).hw_grp =
        (chAuxDirect r (uGrp cfg r s) (uIn cfg r s)).hw_grp := by
      simp only [slotInfo]
      rw [if_neg hne, if_neg hnb]
    have hfu : (slotInfo cfg r chMap srcMap s).force_uncolored = false := by
      simp only [slotInfo]
      rw [if_neg hne, if_neg hnb]
      simp [hmode, hsrc]
    have hcol : (slotInfo cfg r chMap srcMap s).col = c := by
      simp only [slotInfo]
      rw [if_neg hne, if_neg hnb]
      simp [hmode, hsrc]
    rw [show (wingColors c).getD neutralRGB =
        (wingColors (slotInfo cfg r chMap srcMap s).col).getD neutralRGB by rw [hcol]]
    rcases hfix with hfix | hfix
    · exact slotRGB_palette cfg _ hie hfu (Or.inl (by rw [hhg]; exact hfix))
    · exact slotRGB_palette cfg _ hie hfu (Or.inr (by rw [hhg]; exact hfix))

/-- Replies for the C5 witness's first instance: slot 1 routed to a muted
channel 1 with no upstream pointer, so the effective group "CH" has no fixed
hardware color. -/
def rMutedPlain : String → Option String := fun a =>
  if a = "/io/out/USB/1/grp" then some "CH"
  else if a = "/io/out/USB/1/in" then some "1"
  else if a = "/ch/1/name" then some "Voc"
  else if a = "/ch/1/led" then some "0"
  else none

/-- Configuration for the C5 witness's second instance: channel-first
naming, force-hardware-colors off. -/
def cfgChMuted : Cfg := ⟨"USB", 48, "CH", false⟩

/-- Channel metadata for the C5 witness's second instance: the strip patched
from MOD 5 is named "Drum", color code 3, mute/off flag set. -/
def chMapMuted : String → Int → Option Meta := fun g i =>
  if g = "MOD" ∧ i = 5 then some ("Drum", 3, true) else none

/-- Witness for C5's amended claim, exercising all three parts at concrete
inputs: a muted direct strip and a muted channel-map entry yield neutral in
channel-first mode, and a muted source yields its palette color in
source-first mode. -/
theorem muted_color_by_mode_witness :
    slotRGB cfgMuted (slotInfo cfgMuted rMutedPlain (fun _ _ => none) (fun _ _ => none) 1) =
      neutralRGB ∧
    slotRGB cfgChMuted (slotInfo cfgChMuted rSrcMuted chMapMuted (fun _ _ => none) 1) =
      neutralRGB ∧
    slotRGB cfgSrcMuted (slotInfo cfgSrcMuted rSrcMuted (fun _ _ => none) srcMapMuted 1) =
      (wingColors 9).getD neutralRGB :=
  ⟨muted_color_by_mode.1 cfgMuted rMutedPlain (fun _ _ => none) (fun _ _ => none) 1
    rfl (by decide) (by decide) (by decide) (by decide) (Or.inr (by decide)),
   muted_color_by_mode.2.1 cfgChMuted rSrcMuted chMapMuted (fun _ _ => none) 1 "Drum" 3
    rfl (by decide) (by decide) (by decide) (by decide) (Or.inl (by decide)),
   muted_color_by_mode.2.2 cfgSrcMuted rSrcMuted (fun _ _ => none) srcMapMuted 1 "Src" 9
    rfl (by decide) (by decide) (by decide) (Or.inl (by decide))⟩

/-! ## Claim C9 -/

/-- C9: malformed reply values are recovered locally and are never fatal:
the run always emits a complete track list (one Track per output slot, for
every reply map); a hardware-reference candidate whose routing index does
not parse is skipped; a slot routing index that does not parse falls back
to the slot number; a non-numeric color string parses to the default code 0,
which maps to the neutral color; an unknown numeric color code maps to the
neutral color. -/
theorem malformed_recovered :
    (∀ (cfg : Cfg) (r : String → Option String) (chMap srcMap : String → Int → Option Meta)
      (sm : String → Int → Option String),
      (fullRun cfg r chMap srcMap sm).length = cfg.out_count) ∧
    (∀ (cfg : Cfg) (r : String → Option String) (s : Nat),
      pyInt (pyStrip (pyOr (r (ioOutIn cfg s)) "")) = none → refOfOut cfg r s = none) ∧
    (∀ (cfg : Cfg) (r : String → Option String) (s : Nat),
      pyInt (pyOr (r (ioOutIn cfg s)) (toString s)) = none → uIn cfg r s = (s : Int)) ∧
    (∀ raw : String, pyInt raw = none →
      (wingColors ((pyInt raw).getD 0)).getD neutralRGB = neutralRGB) ∧
    (∀ c : Int, wingColors c = none → (wingColors c).getD neutralRGB = neutralRGB) := by
  refine ⟨?_, ?_, ?_, ?_, ?_⟩
  · intro cfg r chMap srcMap sm
    simp [fullRun, stereoScan_length, tracksFor]
  · intro cfg r s h
    unfold refOfOut refCandidate
    split
    · rw [h]; rfl
    · rfl
  · intro cfg r s h
    unfold uIn
    rw [h]
    rfl
  · intro raw h
    rw [h]
    decide
  · intro c h
    rw [h]
    rfl

/-- Configuration used in the C9 witness. -/
def cfgBad : Cfg := ⟨"USB", 2, "CH", false⟩

/-- Replies used in the C9 witness: slot 1's routing index is the
non-numeric string "xy". -/
def rBad : String → Option String := fun a =>
  if a = "/io/out/USB/1/grp" then some "MOD"
  else if a = "/io/out/USB/1/in" then some "xy"
  else none

/-- Witness for C9 at concrete inputs. -/
theorem malformed_recovered_witness :
    (fullRun cfgBad rBad (fun _ _ => none) (fun _ _ => none) (fun _ _ => none)).length = 2 ∧
    refOfOut cfgBad rBad 1 = none ∧
    uIn cfgBad rBad 1 = 1 ∧
    (wingColors ((pyInt "abc").getD 0)).getD neutralRGB = neutralRGB ∧
    (wingColors 99).getD neutralRGB = neutralRGB :=
  ⟨malformed_recovered.1 cfgBad rBad (fun _ _ => none) (fun _ _ => none) (fun _ _ => none),
   malformed_recovered.2.1 cfgBad rBad 1 (by decide),
   malformed_recovered.2.2.1 cfgBad rBad 1 (by decide),
   malformed_recovered.2.2.2.1 "abc" (by decide),
   malformed_recovered.2.2.2.2 99 (by decide)⟩

theorem scanGo_cons (sm : String → Int → Option String) (cur t2 : Track) (rest : List Track) :
    scanGo sm cur (t2 :: rest) =
      if cur.is_empty_routing || cur.stereo_R then cur :: scanGo sm t2 rest
      else if t2.is_empty_routing then cur :: scanGo sm t2 rest
      else if isStereoPair sm cur t2 then
        applyLeft cur :: scanGo sm { t2 with stereo_R := true } rest
      else cur :: scanGo sm t2 rest := rfl

theorem scanGo_L_excl (sm : String → Int → Option String) :
    ∀ (l : List Track) (cur : Track), (∀ t ∈ l, t.stereo_L = false) → cur.stereo_L = false →
      ∀ t ∈ scanGo sm cur l, t.stereo_L = true → t.stereo_R = false := by
  intro l
  induction l with
  | nil =>
    intro cur _ hcur t ht hL
    simp only [scanGo, List.mem_singleton] at ht
    subst ht
    rw [hcur] at hL
    cases hL
  | cons t2 rest ih =>
    intro cur hl hcur t ht hL
    have h2 : t2.stereo_L = false := hl t2 (by simp)
    have hrest : ∀ u ∈ rest, u.stereo_L = false := fun u hu => hl u (by simp [hu])
    rw [scanGo_cons] at ht
    by_cases hA : (cur.is_empty_routing || cur.stereo_R) = true
    · rw [if_pos hA] at ht
      rcases List.mem_cons.1 ht with h | h
      · subst h; rw [hcur] at hL; cases hL
      · exact ih t2 hrest h2 t h hL
    · rw [if_neg hA] at ht
      simp only [Bool.or_eq_true, not_or, Bool.not_eq_true] at hA
      by_cases hB : t2.is_empty_routing = true
      · rw [if_pos hB] at ht
        rcases List.mem_cons.1 ht with h | h
        · subst h; rw [hcur] at hL; cases hL
        · exact ih t2 hrest h2 t h hL
      · rw [if_neg hB] at ht
        by_cases hC : isStereoPair sm cur t2 = true
        · rw [if_pos hC] at ht
          rcases List.mem_cons.1 ht with h | h
          · subst h
            rw [applyLeft_stereo_R]
            exact hA.2
          · exact ih { t2 with stereo_R := true } hrest (by simpa using h2) t h hL
        · rw [if_neg hC] at ht
          rcases List.mem_cons.1 ht with h | h
          · subst h; rw [hcur] at hL; cases hL
          · exact ih t2 hrest h2 t h hL

/-! ## Claim C10 -/

/-- C10: after the stereo pairing pass on an input list in which every
track's stereo flags are false (as the resolver produces them), no output
track ever carries both the stereo-left and the stereo-right flag. -/
theorem stereo_flags_exclusive (sm : String → Int → Option String) (ts : List Track)
    (h : ∀ t ∈ ts, t.stereo_L = false ∧ t.stereo_R = false) :
    ∀ t ∈ stereoScan sm ts, ¬(t.stereo_L = true ∧ t.stereo_R = true) := by
  intro t ht hboth
  cases ts with
  | nil => simp [stereoScan] at ht
  | cons c rest =>
    simp only [stereoScan] at ht
    have hfalse := scanGo_L_excl sm rest c
      (fun u hu => (h u (by simp [hu])).1) ((h c (by simp)).1) t ht hboth.1
    rw [hfalse] at hboth
    cases hboth.2

/-- Track used by the C10 witness: a left-marker name on a routed slot. -/
def trackA : Track :=
  { slot := 1, name := "Gtr L", color_r := 0, color_g := 0, color_b := 0,
    norm_grp := "G1", in_num := 1, ch_name := "-", src_name := "-", hw_name := "-",
    reaper_input := 0, stereo_L := false, stereo_R := false, is_empty_routing := false }

/-- Track used by the C10 witness: the matching right name. -/
def trackB : Track :=
  { trackA with slot := 2, name := "Gtr R", in_num := 2, reaper_input := 1 }

/-- Witness for C10 at a concrete input: a name-matched pair. -/
theorem stereo_flags_exclusive_witness :
    ¬((applyLeft trackA).stereo_L = true ∧ (applyLeft trackA).stereo_R = true) :=
  stereo_flags_exclusive (fun _ _ => none) [trackA, trackB] (by decide)
    (applyLeft trackA) (by decide)

theorem scanGo_cons_skip (sm : String → Int → Option String) (cur t2 : Track) (rest : List Track)
    (h : ¬((cur.is_empty_routing || cur.stereo_R) = false ∧ t2.is_empty_routing = false ∧
      isStereoPair sm cur t2 = true)) :
    scanGo sm cur (t2 :: rest) = cur :: scanGo sm t2 rest := by
  rw [scanGo_cons]
  by_cases hA : (cur.is_empty_routing || cur.stereo_R) = true
  · rw [if_pos hA]
  · rw [if_neg hA]
    by_cases hB : t2.is_empty_routing = true
    · rw [if_pos hB]
    · rw [if_neg hB]
      have hC : ¬ isStereoPair sm cur t2 = true := by
        intro hc
        exact h ⟨by simpa using hA, by simpa using hB, hc⟩
      rw [if_neg hC]

theorem scanGo_cons_pair (sm : String → Int → Option String) (cur t2 : Track) (rest : List Track)
    (hA : (cur.is_empty_routing || cur.stereo_R) = false) (hB : t2.is_empty_routing = false)
    (hC : isStereoPair sm cur t2 = true) :
    scanGo sm cur (t2 :: rest) =
      applyLeft cur :: scanGo sm { t2 with stereo_R := true } rest := by
  rw [scanGo_cons]
  rw [if_neg (by simp [hA] : ¬ ((cur.is_empty_routing || cur.stereo_R) = true))]
  rw [if_neg (by simp [hB] : ¬ (t2.is_empty_routing = true))]
  rw [if_pos hC]

theorem scanGo_empty_flags (sm : String → Int → Option String) :
    ∀ (l : List Track) (cur : Track),
      (∀ t ∈ l, t.is_empty_routing = true → t.stereo_L = false ∧ t.stereo_R = false) →
      (cur.is_empty_routing = true → cur.stereo_L = false ∧ cur.stereo_R = false) →
      ∀ t ∈ scanGo sm cur l, t.is_empty_routing = true →
        t.stereo_L = false ∧ t.stereo_R = false := by
  intro l
  induction l with
  | nil =>
    intro cur _ hcur t ht
    simp only [scanGo, List.mem_singleton] at ht
    subst ht
    exact hcur
  | cons t2 rest ih =>
    intro cur hl hcur t ht hte
    have h2 := hl t2 (by simp)
    have hrest : ∀ u ∈ rest, u.is_empty_routing = true → u.stereo_L = false ∧ u.stereo_R = false :=
      fun u hu => hl u (by simp [hu])
    by_cases hP : (cur.is_empty_routing || cur.stereo_R) = false ∧
        t2.is_empty_routing = false ∧ isStereoPair sm cur t2 = true
    · obtain ⟨hA, hB, hC⟩ := hP
      rw [scanGo_cons_pair sm cur t2 rest hA hB hC] at ht
      rcases List.mem_cons.1 ht with h | h
      · subst h
        -- applyLeft preserves is_empty_routing, and a paired left track is routed
        have hcurE : cur.is_empty_routing = false := by
          cases hce : cur.is_empty_routing
          · rfl
          · rw [hce] at hA; simp at hA
        have : (applyLeft cur).is_empty_routing = cur.is_empty_routing := rfl
        rw [this, hcurE] at hte
        cases hte
      · refine ih { t2 with stereo_R := true } hrest ?_ t h hte
        intro hx
        have : ({ t2 with stereo_R := true } : Track).is_empty_routing = t2.is_empty_routing := rfl
        rw [this, hB] at hx
        cases hx
    · rw [scanGo_cons_skip sm cur t2 rest hP] at ht
      rcases List.mem_cons.1 ht with h | h
      · subst h
        exact hcur hte
      · exact ih t2 hrest h2 t h hte

theorem scanGo_R_pairing (sm : String → Int → Option String) :
    ∀ (l : List Track) (cur : Track),
      (∀ t ∈ l, t.stereo_L = false) → (∀ t ∈ l, t.stereo_R = false) →
      ∀ (i : Nat) (t t' : Track),
        (scanGo sm cur l).get? i = some t → (scanGo sm cur l).get? (i + 1) = some t' →
        t'.stereo_R = true →
        t.stereo_L = true ∧
        ∃ u u', (cur :: l).get? i = some u ∧ (cur :: l).get? (i + 1) = some u' ∧
          isStereoPair sm u u' = true ∧ u.is_empty_routing = false ∧
          u'.is_empty_routing = false := by
  intro l
  induction l with
  | nil =>
    intro cur _ _ i t t' h1 h2 hR'
    rw [show scanGo sm cur [] = [cur] from rfl, List.get?_cons_succ, List.get?_nil] at h2
    cases h2
  | cons t2 rest ih =>
    intro cur hL hR i t t' h1 h2 hR'
    have hR2 : t2.stereo_R = false := hR t2 (by simp)
    have hLrest : ∀ u ∈ rest, u.stereo_L = false := fun u hu => hL u (by simp [hu])
    have hRrest : ∀ u ∈ rest, u.stereo_R = false := fun u hu => hR u (by simp [hu])
    by_cases hP : (cur.is_empty_routing || cur.stereo_R) = false ∧
        t2.is_empty_routing = false ∧ isStereoPair sm cur t2 = true
    · obtain ⟨hA, hB, hC⟩ := hP
      rw [scanGo_cons_pair sm cur t2 rest hA hB hC] at h1 h2
      cases i with
      | zero =>
        rw [List.get?_cons_zero] at h1
        simp only [Option.some.injEq] at h1
        subst h1
        have hcurE : cur.is_empty_routing = false := by
          cases hce : cur.is_empty_routing
          · rfl
          · rw [hce] at hA; simp at hA
        exact ⟨rfl, cur, t2, rfl, rfl, hC, hcurE, hB⟩
      | succ j =>
        rw [List.get?_cons_succ] at h1 h2
        obtain ⟨htL, u, u', hu, hu', hp, he, he'⟩ :=
          ih { t2 with stereo_R := true } hLrest hRrest j t t' h1 h2 hR'
        cases j with
        | zero =>
          rw [List.get?_cons_zero] at hu
          simp only [Option.some.injEq] at hu
          subst hu
          rw [List.get?_cons_succ] at hu'
          refine ⟨htL, t2, u', by rfl, ?_, ?_, ?_, he'⟩
          · rw [List.get?_cons_succ, List.get?_cons_succ]
            exact hu'
          · rw [← isStereoPair_setR sm t2 u' true]
            exact hp
          · exact he
        | succ k =>
          rw [List.get?_cons_succ] at hu hu'
          refine ⟨htL, u, u', ?_, ?_, hp, he, he'⟩
          · rw [List.get?_cons_succ, List.get?_cons_succ]
            exact hu
          · rw [List.get?_cons_succ, List.get?_cons_succ]
            exact hu'
    · rw [scanGo_cons_skip sm cur t2 rest hP] at h1 h2
      cases i with
      | zero =>
        rw [List.get?_cons_succ] at h2
        obtain ⟨b, tl, hb, hbR, _⟩ := scanGo_head sm t2 rest
        rw [hb, List.get?_cons_zero] at h2
        simp only [Option.some.injEq] at h2
        subst h2
        rw [hbR, hR2] at hR'
        cases hR'
      | succ j =>
        rw [List.get?_cons_succ] at h1 h2
        obtain ⟨htL, u, u', hu, hu', hp, he, he'⟩ := ih t2 hLrest hRrest j t t' h1 h2 hR'
        refine ⟨htL, u, u', ?_, ?_, hp, he, he'⟩
        · rw [List.get?_cons_succ]
          exact hu
        · rw [List.get?_cons_succ]
          exact hu'

theorem resolveSlot_flags (cfg : Cfg) (r : String → Option String)
    (chMap srcMap : String → Int → Option Meta) (s : Nat) :
    (resolveSlot cfg r chMap srcMap s).stereo_L = false ∧
    (resolveSlot cfg r chMap srcMap s).stereo_R = false :=
  ⟨rfl, rfl⟩

theorem tracksFor_flags (cfg : Cfg) (r : String → Option String)
    (chMap srcMap : String → Int → Option Meta) :
    ∀ t ∈ tracksFor cfg r chMap srcMap, t.stereo_L = false ∧ t.stereo_R = false := by
  intro t ht
  simp only [tracksFor, List.mem_map] at ht
  obtain ⟨k, _, hk⟩ := ht
  rw [← hk]
  exact resolveSlot_flags cfg r chMap srcMap (k + 1)

/-! ## Claim C7 -/

/-- C7: in every track list produced by the full resolution run, a track is
marked stereo-right only if the immediately preceding track is marked
stereo-left and the two resolver-produced tracks at those slots satisfied
the pass's compatibility condition (`isStereoPair`: matching L/R display
names, or same effective hardware group with consecutive odd/even reference
indices, plus the stereo-mode requirement for non-bus groups) with both
routed; and no track with the unrouted flag set carries a stereo-left or
stereo-right mark. -/
theorem resolved_stereo_invariant (cfg : Cfg) (r : String → Option String)
    (chMap srcMap : String → Int → Option Meta) (sm : String → Int → Option String) :
    (∀ (i : Nat) (t t' : Track),
      (fullRun cfg r chMap srcMap sm).get? i = some t →
      (fullRun cfg r chMap srcMap sm).get? (i + 1) = some t' →
      t'.stereo_R = true →
      t.stereo_L = true ∧
      ∃ u u', (tracksFor cfg r chMap srcMap).get? i = some u ∧
        (tracksFor cfg r chMap srcMap).get? (i + 1) = some u' ∧
        isStereoPair sm u u' = true ∧ u.is_empty_routing = false ∧
        u'.is_empty_routing = false) ∧
    (∀ t ∈ fullRun cfg r chMap srcMap sm, t.is_empty_routing = true →
      t.stereo_L = false ∧ t.stereo_R = false) := by
  have hflags := tracksFor_flags cfg r chMap srcMap
  cases htr : tracksFor cfg r chMap srcMap with
  | nil =>
    constructor
    · intro i t t' h1 _ _
      rw [fullRun, htr] at h1
      simp [stereoScan, List.get?_nil] at h1
    · intro t ht
      rw [fullRun, htr] at ht
      simp [stereoScan] at ht
  | cons c rest =>
    rw [htr] at hflags
    have hc := hflags c (by simp)
    have hrL : ∀ u ∈ rest, u.stereo_L = false := fun u hu => (hflags u (by simp [hu])).1
    have hrR : ∀ u ∈ rest, u.stereo_R = false := fun u hu => (hflags u (by simp [hu])).2
    constructor
    · intro i t t' h1 h2 hR'
      rw [fullRun, htr] at h1 h2
      simp only [stereoScan] at h1 h2
      exact scanGo_R_pairing sm rest c hrL hrR i t t' h1 h2 hR'
    · intro t ht hte
      rw [fullRun, htr] at ht
      simp only [stereoScan] at ht
      refine scanGo_empty_flags sm rest c ?_ ?_ t ht hte
      · intro u hu _
        exact hflags u (by simp [hu])
      · intro _
        exact hc

/-- Configuration used by the C7 witness: two slots, hardware-label names. -/
def cfgPair : Cfg := ⟨"USB", 2, "HW", false⟩

/-- Replies used by the C7 witness: slot 1 → MAIN 1, slot 2 → MAIN 2. -/
def rPair : String → Option String := fun a =>
  if a = "/io/out/USB/1/grp" then some "MAIN"
  else if a = "/io/out/USB/1/in" then some "1"
  else if a = "/io/out/USB/2/grp" then some "MAIN"
  else if a = "/io/out/USB/2/in" then some "2"
  else none

/-- Witness for C7 at a concrete full run that produces a stereo pair. -/
theorem resolved_stereo_invariant_witness :
    (fullRun cfgPair rPair (fun _ _ => none) (fun _ _ => none) (fun _ _ => none)).get? 1 =
      some { resolveSlot cfgPair rPair (fun _ _ => none) (fun _ _ => none) 2 with
        stereo_R := true } ∧
    (applyLeft (resolveSlot cfgPair rPair (fun _ _ => none) (fun _ _ => none) 1)).stereo_L
      = true := by
  constructor
  · decide
  · exact ((resolved_stereo_invariant cfgPair rPair (fun _ _ => none) (fun _ _ => none)
      (fun _ _ => none)).1 0
      (applyLeft (resolveSlot cfgPair rPair (fun _ _ => none) (fun _ _ => none) 1))
      { resolveSlot cfgPair rPair (fun _ _ => none) (fun _ _ => none) 2 with stereo_R := true }
      (by decide) (by decide) (by decide)).1

theorem isStereoPair_main (sm : String → Int → Option String) (u u' : Track)
    (hg : u.norm_grp = "MAIN") (hg' : u'.norm_grp = "MAIN")
    (hi : u.in_num = 1) (hi' : u'.in_num = 2) :
    isStereoPair sm u u' = true := by
  unfold isStereoPair
  split
  · rfl
  · have hbeq : (u.norm_grp == u'.norm_grp) = true := by rw [hg, hg']; rfl
    rw [if_pos hbeq]
    have hbus : busGroups.contains u.norm_grp = true := by rw [hg]; rfl
    rw [if_pos hbus, hi, hi']
    decide

theorem scanGo_main_pair (sm : String → Int → Option String) :
    ∀ (l : List Track) (cur : Track) (i : Nat) (u u' : Track),
      (cur :: l).get? i = some u → (cur :: l).get? (i + 1) = some u' →
      u.is_empty_routing = false → u'.is_empty_routing = false →
      u.norm_grp = "MAIN" → u'.norm_grp = "MAIN" → u.in_num = 1 → u'.in_num = 2 →
      ∀ v, (scanGo sm cur l).get? i = some v → v.stereo_R = false →
        v.stereo_L = true ∧ v.slot = u.slot ∧
        v.reaper_input = 1024 + ((u.slot : Int) - 1) ∧
        ∃ w, (scanGo sm cur l).get? (i + 1) = some w ∧ w.stereo_R = true := by
  intro l
  induction l with
  | nil =>
    intro cur i u u' h1 h2 _ _ _ _ _ _ v _ _
    rw [List.get?_cons_succ, List.get?_nil] at h2
    cases h2
  | cons t2 rest ih =>
    intro cur i u u' h1 h2 he he' hg hg' hi hi' v hv hvR
    cases i with
    | zero =>
      rw [List.get?_cons_zero] at h1
      simp only [Option.some.injEq] at h1
      subst h1
      rw [List.get?_cons_succ, List.get?_cons_zero] at h2
      simp only [Option.some.injEq] at h2
      subst h2
      cases hcr : cur.stereo_R with
      | true =>
        -- the left candidate was already consumed: the loop skips, so the
        -- emitted head keeps stereo_R = true, contradicting v.stereo_R = false
        have hA : (cur.is_empty_routing || cur.stereo_R) = true := by rw [hcr]; simp
        rw [show scanGo sm cur (t2 :: rest) = cur :: scanGo sm t2 rest by
          rw [scanGo_cons, if_pos hA]] at hv
        rw [List.get?_cons_zero] at hv
        simp only [Option.some.injEq] at hv
        subst hv
        rw [hcr] at hvR
        cases hvR
      | false =>
        have hA : (cur.is_empty_routing || cur.stereo_R) = false := by rw [he, hcr]; rfl
        have hC := isStereoPair_main sm cur t2 hg hg' hi hi'
        rw [scanGo_cons_pair sm cur t2 rest hA he' hC] at hv
        rw [List.get?_cons_zero] at hv
        simp only [Option.some.injEq] at hv
        subst hv
        refine ⟨rfl, rfl, rfl, ?_⟩
        obtain ⟨b, tl, hb, hbR, _⟩ := scanGo_head sm { t2 with stereo_R := true } rest
        refine ⟨b, ?_, ?_⟩
        · rw [scanGo_cons_pair sm cur t2 rest hA he' hC, List.get?_cons_succ, hb]
          rfl
        · rw [hbR]
    | succ j =>
      rw [List.get?_cons_succ] at h1 h2
      by_cases hP : (cur.is_empty_routing || cur.stereo_R) = false ∧
          t2.is_empty_routing = false ∧ isStereoPair sm cur t2 = true
      · obtain ⟨hA, hB, hC⟩ := hP
        rw [scanGo_cons_pair sm cur t2 rest hA hB hC] at hv
        rw [List.get?_cons_succ] at hv
        cases j with
        | zero =>
          rw [List.get?_cons_zero] at h1
          simp only [Option.some.injEq] at h1
          subst h1
          rw [List.get?_cons_succ] at h2
          obtain ⟨hL, hs, hr, w, hw, hwR⟩ :=
            ih { t2 with stereo_R := true } 0 { t2 with stereo_R := true } u'
              (by rw [List.get?_cons_zero]) (by rw [List.get?_cons_succ]; exact h2)
              he he' hg hg' hi hi' v hv hvR
          refine ⟨hL, hs, hr, w, ?_, hwR⟩
          rw [scanGo_cons_pair sm cur t2 rest hA hB hC, List.get?_cons_succ]
          exact hw
        | succ k =>
          rw [List.get?_cons_succ] at h1 h2
          obtain ⟨hL, hs, hr, w, hw, hwR⟩ :=
            ih { t2 with stereo_R := true } (k + 1) u u'
              (by rw [List.get?_cons_succ]; exact h1) (by rw [List.get?_cons_succ]; exact h2)
              he he' hg hg' hi hi' v hv hvR
          refine ⟨hL, hs, hr, w, ?_, hwR⟩
          rw [scanGo_cons_pair sm cur t2 rest hA hB hC, List.get?_cons_succ]
          exact hw
      · rw [scanGo_cons_skip sm cur t2 rest hP] at hv
        rw [List.get?_cons_succ] at hv
        obtain ⟨hL, hs, hr, w, hw, hwR⟩ :=
          ih t2 j u u' h1 h2 he he' hg hg' hi hi' v hv hvR
        refine ⟨hL, hs, hr, w, ?_, hwR⟩
        rw [scanGo_cons_skip sm cur t2 rest hP, List.get?_cons_succ]
        exact hw

/-! ## Claim C6 -/

/-- First track of the C6 counterexample: a routed track whose name carries
the left marker. -/
def trackP : Track :=
  { slot := 1, name := "Foo L", color_r := 0, color_g := 0, color_b := 0,
    norm_grp := "Z", in_num := 1, ch_name := "-", src_name := "-", hw_name := "-",
    reaper_input := 0, stereo_L := false, stereo_R := false, is_empty_routing := false }

/-- Second track of the C6 counterexample: routed, MAIN group, index 1, but
its name "Foo R" makes it the right half of a name-matched pair with the
preceding track. -/
def trackQ : Track :=
  { trackP with
    slot := 2, name := "Foo R", norm_grp := "MAIN", in_num := 1, reaper_input := 1 }

/-- Third track of the C6 counterexample: routed, MAIN group, index 2. -/
def trackW : Track :=
  { trackP with
    slot := 3, name := "", norm_grp := "MAIN", in_num := 2, reaper_input := 2 }

/-- C6 counterexample: tracks 2 and 3 are adjacent, both routed, both MAIN,
with reference indices 1 and 2 — yet the pass does NOT mark them as a pair,
because track 2 is consumed as the right half of the preceding name-matched
pair (Foo L / Foo R) and the forward scan skips a left candidate that is
already marked stereo-right. -/
theorem main_pair_skipped_cex :
    trackQ.is_empty_routing = false ∧ trackW.is_empty_routing = false ∧
    trackQ.norm_grp = "MAIN" ∧ trackW.norm_grp = "MAIN" ∧
    trackQ.in_num = 1 ∧ trackW.in_num = 2 ∧
    trackQ.stereo_L = false ∧ trackQ.stereo_R = false ∧ trackW.stereo_R = false ∧
    ((stereoScan (fun _ _ => none) [trackP, trackQ, trackW]).get? 1).map Track.stereo_L
      = some false ∧
    ((stereoScan (fun _ _ => none) [trackP, trackQ, trackW]).get? 2).map Track.stereo_R
      = some false := by
  refine ⟨?_, ?_, ?_, ?_, ?_, ?_, ?_, ?_, ?_, ?_, ?_⟩ <;> decide

/-- C6 amended: for adjacent routed tracks on the MAIN group with reference
indices 1 and 2, the pass marks the first stereo-left, remaps its
playback-engine input index to `1024 + (slot - 1)`, and marks the second
stereo-right — provided the pass has not already consumed the first track as
the right half of a preceding pair (its output right-role flag is false);
inputs produced by the resolver for MAIN slots can never be so consumed. -/
theorem main_pair_marks (sm : String → Int → Option String) (l : List Track) (i : Nat)
    (u u' : Track) (h1 : l.get? i = some u) (h2 : l.get? (i + 1) = some u')
    (he : u.is_empty_routing = false) (he' : u'.is_empty_routing = false)
    (hg : u.norm_grp = "MAIN") (hg' : u'.norm_grp = "MAIN")
    (hi : u.in_num = 1) (hi' : u'.in_num = 2)
    (v : Track) (hv : (stereoScan sm l).get? i = some v) (hvR : v.stereo_R = false) :
    v.stereo_L = true ∧ v.slot = u.slot ∧
    v.reaper_input = 1024 + ((u.slot : Int) - 1) ∧
    ∃ w, (stereoScan sm l).get? (i + 1) = some w ∧ w.stereo_R = true := by
  cases l with
  | nil =>
    rw [List.get?_nil] at h1
    cases h1
  | cons c rest =>
    simp only [stereoScan] at hv ⊢
    exact scanGo_main_pair sm rest c i u u' h1 h2 he he' hg hg' hi hi' v hv hvR

/-- First track of the C6 witness: routed, MAIN group, index 1. -/
def trackM1 : Track :=
  { slot := 1, name := "", color_r := 0, color_g := 0, color_b := 0,
    norm_grp := "MAIN", in_num := 1, ch_name := "-", src_name := "-", hw_name := "-",
    reaper_input := 0, stereo_L := false, stereo_R := false, is_empty_routing := false }

/-- Second track of the C6 witness: routed, MAIN group, index 2. -/
def trackM2 : Track :=
  { trackM1 with slot := 2, in_num := 2, reaper_input := 1 }

/-- Witness for C6's amended claim at a concrete two-track list. -/
theorem main_pair_marks_witness :
    (applyLeft trackM1).stereo_L = true ∧
    (applyLeft trackM1).reaper_input = 1024 + ((trackM1.slot : Int) - 1) ∧
    ∃ w, (stereoScan (fun _ _ => none) [trackM1, trackM2]).get? 1 = some w ∧
      w.stereo_R = true := by
  have h := main_pair_marks (fun _ _ => none) [trackM1, trackM2] 0 trackM1 trackM2
    (by decide) (by decide) (by decide) (by decide) (by decide) (by decide)
    (by decide) (by decide) (applyLeft trackM1) (by decide) (by decide)
  exact ⟨h.1, h.2.2.1, h.2.2.2⟩

/-! ## Claim C3 -/

theorem scanGo_preserves_R (sm : String → Int → Option String) :
    ∀ (l : List Track) (cur : Track) (i : Nat) (t : Track),
      (cur :: l).get? i = some t → t.stereo_R = true →
      (scanGo sm cur l).get? i = some t := by
  intro l
  induction l with
  | nil =>
    intro cur i t h1 _
    cases i with
    | zero => exact h1
    | succ j =>
      rw [List.get?_cons_succ, List.get?_nil] at h1
      cases h1
  | cons t2 rest ih =>
    intro cur i t h1 hR
    cases i with
    | zero =>
      rw [List.get?_cons_zero] at h1
      simp only [Option.some.injEq] at h1
      subst h1
      have hA : (cur.is_empty_routing || cur.stereo_R) = true := by rw [hR]; simp
      rw [scanGo_cons, if_pos hA, List.get?_cons_zero]
    | succ j =>
      rw [List.get?_cons_succ] at h1
      by_cases hP : (cur.is_empty_routing || cur.stereo_R) = false ∧
          t2.is_empty_routing = false ∧ isStereoPair sm cur t2 = true
      · obtain ⟨hA, hB, hC⟩ := hP
        rw [scanGo_cons_pair sm cur t2 rest hA hB hC, List.get?_cons_succ]
        cases j with
        | zero =>
          rw [List.get?_cons_zero] at h1
          simp only [Option.some.injEq] at h1
          subst h1
          exact ih { t2 with stereo_R := true } 0 t2
            (by rw [List.get?_cons_zero, setR_self t2 hR]) hR
        | succ k =>
          rw [List.get?_cons_succ] at h1
          exact ih { t2 with stereo_R := true } (k + 1) t
            (by rw [List.get?_cons_succ]; exact h1) hR
      · rw [scanGo_cons_skip sm cur t2 rest hP, List.get?_cons_succ]
        exact ih t2 j t h1 hR

/-- First track of the C3 counterexample. -/
def trackX1 : Track :=
  { slot := 1, name := "X L", color_r := 0, color_g := 0, color_b := 0,
    norm_grp := "G1", in_num := 1, ch_name := "-", src_name := "-", hw_name := "-",
    reaper_input := 0, stereo_L := false, stereo_R := false, is_empty_routing := false }

/-- Second track of the C3 counterexample: paired with the third by name in
the first pass, after which its name is stripped to "X R". -/
def trackX2 : Track :=
  { trackX1 with
    slot := 2, name := "X R L", norm_grp := "G2", in_num := 5, reaper_input := 1 }

/-- Third track of the C3 counterexample. -/
def trackX3 : Track :=
  { trackX1 with
    slot := 3, name := "X R R", norm_grp := "G3", in_num := 9, reaper_input := 2 }

/-- C3 counterexample: the stereo pairing pass is NOT idempotent. On this
three-track list (all flags initially false), the first pass pairs tracks 2
and 3 by name and strips track 2's name from "X R L" to "X R", which makes
tracks 1 and 2 a name-matched pair for the second pass: the second
application changes names, flags and the playback-engine input index. -/
theorem stereo_pass_not_idempotent_cex :
    (∀ t ∈ [trackX1, trackX2, trackX3], t.stereo_L = false ∧ t.stereo_R = false) ∧
    stereoScan (fun _ _ => none) (stereoScan (fun _ _ => none) [trackX1, trackX2, trackX3]) ≠
      stereoScan (fun _ _ => none) [trackX1, trackX2, trackX3] := by
  constructor
  · decide
  · decide

/-- C3 amended: the pass is not idempotent in general — a second application
can pair and rewrite further tracks whose names the first application
rewrote — but every track the first application marked stereo-right is
returned unchanged, at the same position, by a second application (a track
already marked right-role is never re-paired or modified again). -/
theorem stereo_pass_right_fixed (sm : String → Int → Option String) (ts : List Track)
    (i : Nat) (t : Track) (h : (stereoScan sm ts).get? i = some t) (hR : t.stereo_R = true) :
    (stereoScan sm (stereoScan sm ts)).get? i = some t := by
  cases hout : stereoScan sm ts with
  | nil =>
    rw [hout, List.get?_nil] at h
    cases h
  | cons c rest =>
    rw [hout] at h
    simp only [stereoScan]
    exact scanGo_preserves_R sm rest c i t h hR

/-- Witness for C3's amended claim: the right-marked third track of the
counterexample list is unchanged in place by the second application. -/
theorem stereo_pass_right_fixed_witness :
    (stereoScan (fun _ _ => none)
      (stereoScan (fun _ _ => none) [trackX1, trackX2, trackX3])).get? 2 =
      some { trackX3 with stereo_R := true } :=
  stereo_pass_right_fixed (fun _ _ => none) [trackX1, trackX2, trackX3] 2
    { trackX3 with stereo_R := true } (by decide) (by decide)
